import Mathlib

/-!
Verification of the NABH document-management application's content pipeline,
persistence gateway and extraction adapter, embedded shallowly from the
TypeScript source.  String-processing primitives of JavaScript
(String.prototype.trim, replace with a global literal pattern, toLowerCase,
startsWith) are modelled on `List Char`; asynchronous calls to the backend
store and the generative-AI endpoint are modelled by passing the call's
outcome as an explicit argument.
-/

/-- Whitespace test used by JavaScript `String.prototype.trim` restricted to
the ASCII whitespace characters (space, tab, line feed, carriage return,
vertical tab, form feed); the Unicode space characters are not produced by
any string in this code base. -/
def jsWhitespace (c : Char) : Bool :=
  c = ' ' || c = '\t' || c = '\n' || c = '\x0d' || c = '\x0b' || c = '\x0c'

/-- Drop leading JavaScript whitespace. -/
def dropWS (l : List Char) : List Char := l.dropWhile jsWhitespace

/-- Drop trailing JavaScript whitespace. -/
def rtrimWS (l : List Char) : List Char := (dropWS l.reverse).reverse

/-- Model of JavaScript `s.trim()` on character lists. -/
def jsTrimList (l : List Char) : List Char := rtrimWS (dropWS l)

/-- Model of JavaScript `s.trim()`. -/
def jsTrim (s : String) : String := ⟨jsTrimList s.data⟩

/-- ASCII lower-casing of one character, the fragment of JavaScript
`toLowerCase` exercised by this code base (the compared literals are ASCII). -/
def jsToLower (c : Char) : Char :=
  if 'A' ≤ c ∧ c ≤ 'Z' then Char.ofNat (c.toNat + 32) else c

/-- Model of JavaScript `s.toLowerCase()` on character lists. -/
def lowerList (l : List Char) : List Char := l.map jsToLower

/-- Character comparison for a case-sensitive literal pattern. -/
def chEq (a b : Char) : Bool := a == b

/-- Character comparison for a case-insensitive literal pattern (regex flag i). -/
def ciEq (a b : Char) : Bool := jsToLower a == jsToLower b

/-- Does the pattern match at the head of the text, character by character
under the comparison `same`? -/
def matchesPfx (same : Char → Char → Bool) : List Char → List Char → Bool
  | [], _ => true
  | _ :: _, [] => false
  | a :: as, b :: bs => same a b && matchesPfx same as bs

/-- Model of JavaScript `s.replace(/pat/g, repl)` for a literal pattern
`p :: ps` under character comparison `same`: one left-to-right scan replacing
non-overlapping occurrences. -/
def replaceAllG (same : Char → Char → Bool) (p : Char) (ps : List Char)
    (r : List Char) : List Char → List Char
  | [] => []
  | c :: rest =>
    if matchesPfx same (p :: ps) (c :: rest) then
      r ++ replaceAllG same p ps r (rest.drop ps.length)
    else
      c :: replaceAllG same p ps r rest
termination_by s => s.length
decreasing_by
  · simp [List.length_drop]
    omega
  · simp

/-- Model of JavaScript `s.replace(/pat/g, repl)` with a literal pattern. -/
def jsReplaceAll (pat repl s : String) : String :=
  match pat.data with
  | [] => s
  | p :: ps => ⟨replaceAllG chEq p ps repl.data s.data⟩

/-- Model of JavaScript `s.replace(/pat/gi, repl)` with a literal pattern. -/
def jsReplaceAllCI (pat repl s : String) : String :=
  match pat.data with
  | [] => s
  | p :: ps => ⟨replaceAllG ciEq p ps repl.data s.data⟩

/-- Model of JavaScript `s.startsWith(pfx)` on character lists. -/
def jsStartsWith (pfx l : List Char) : Bool := pfx.isPrefixOf l

/-- Decimal digit character for `k % 10`. -/
def digitChar (k : Nat) : Char := Char.ofNat (48 + k % 10)

/-- Accumulator-style decimal rendering of a natural number. -/
def natDigitsAux (n : Nat) (acc : List Char) : List Char :=
  if h : n < 10 then digitChar n :: acc
  else natDigitsAux (n / 10) (digitChar (n % 10) :: acc)
termination_by n
decreasing_by omega

/-- Decimal digit list of a natural number. -/
def natDigits (n : Nat) : List Char := natDigitsAux n []

/-- Decimal string of a natural number. -/
def natDecStr (n : Nat) : String := ⟨natDigits n⟩

/-- Two-digit zero-padded rendering, the `day: '2-digit'` locale option. -/
def pad2 (n : Nat) : String := if n < 10 then "0" ++ natDecStr n else natDecStr n

/-- Short month names produced by `toLocaleDateString('en-GB', { month: 'short' })`
(the en-GB locale abbreviates September as "Sept"). -/
def monthAbbrevsEnGB : List String :=
  ["Jan", "Feb", "Mar", "Apr", "May", "Jun", "Jul", "Aug", "Sept", "Oct", "Nov", "Dec"]

/-- Rendering of a (proleptic Gregorian) year number, the `year: 'numeric'`
locale option. -/
def yearNumericStr (y : Int) : String :=
  if y < 0 then "-" ++ natDecStr (-y).toNat else natDecStr y.toNat

/-- Proleptic-Gregorian civil date (year, month, day) of a day number counted
from 1970-01-01, as specified for ECMAScript Date decomposition; computed with
the standard era-based algorithm.  Int division `/` is Euclidean division,
which for the positive literal divisors used here is floor division. -/
def civilFromDays (z : Int) : Int × Nat × Nat :=
  let zz := z + 719468
  let era := zz / 146097
  let doe : Nat := (zz - era * 146097).toNat
  let yoe : Nat := (doe - doe / 1460 + doe / 36524 - doe / 146096) / 365
  let y : Int := (yoe : Int) + era * 400
  let doy : Nat := doe - (365 * yoe + yoe / 4 - yoe / 100)
  let mp : Nat := (5 * doy + 2) / 153
  let d : Nat := doy - (153 * mp + 2) / 5 + 1
  let m : Nat := if mp < 10 then mp + 3 else mp - 9
  (if m ≤ 2 then y + 1 else y, m, d)

/-- Local civil day number of an epoch timestamp in milliseconds, for a host
timezone with the fixed offset `tzOffsetMs` (no daylight-saving transitions;
the deployment timezone, Indian Standard Time, has none). -/
def civilDayOf (tzOffsetMs t : Int) : Int := (t + tzOffsetMs) / 86400000

/-- Model of `d.toLocaleDateString('en-GB', { day: '2-digit', month: 'short',
year: 'numeric' })` for the Date holding epoch-milliseconds `t`, on a host with
fixed timezone offset `tzOffsetMs`. -/
def formatDateEnGB (tzOffsetMs t : Int) : String :=
  match civilFromDays (civilDayOf tzOffsetMs t) with
  | (y, m, d) => pad2 d ++ " " ++ (monthAbbrevsEnGB.getD (m - 1) "") ++ " " ++ yearNumericStr y

/-- Epoch milliseconds of the effective date computed by
`generateSOPFromContent`: `today.getTime() - 30 * 24 * 60 * 60 * 1000`. -/
def generateSOPEffectiveMs (now : Int) : Int := now - 30 * 24 * 60 * 60 * 1000

/-- Epoch milliseconds of the review date computed by
`generateSOPFromContent`: `today.getTime() + 365 * 24 * 60 * 60 * 1000`. -/
def generateSOPReviewMs (now : Int) : Int := now + 365 * 24 * 60 * 60 * 1000

/-- Formatted effective date interpolated into the SOP template by
`generateSOPFromContent`. -/
def generateSOPEffectiveDate (tzOffsetMs now : Int) : String :=
  formatDateEnGB tzOffsetMs (generateSOPEffectiveMs now)

/-- Formatted review date interpolated into the SOP template by
`generateSOPFromContent`. -/
def generateSOPReviewDate (tzOffsetMs now : Int) : String :=
  formatDateEnGB tzOffsetMs (generateSOPReviewMs now)

/-- Document number computed by `generateSOPFromContent`:
`SOP-${chapterCode}-${objectiveCode ? objectiveCode.replace(/\./g, '-') : '001'}`
(a missing or empty objective code is falsy in JavaScript). -/
def generateSOPDocNo (chapterCode : String) (objectiveCode : Option String) : String :=
  "SOP-" ++ chapterCode ++ "-" ++
    (match objectiveCode with
     | some oc => if oc = "" then "001" else jsReplaceAll "." "-" oc
     | none => "001")

/-- Value of a non-empty all-digit character list read as a decimal numeral. -/
def decDigitsVal : List Char → Option Nat
  | [] => none
  | l =>
    if l.all Char.isDigit then
      some (l.foldl (fun acc c => acc * 10 + (c.toNat - 48)) 0)
    else none

/-- Version-string domain of the improvement workflow: strings of the shape
produced by `toFixed(1)` (an integer part and exactly one fraction digit),
read as a count of tenths. -/
def parseTenths (v : String) : Option Nat :=
  match v.data.splitOn '.' with
  | [a, b] =>
    match decDigitsVal a, decDigitsVal b with
    | some ai, some bi => if b.length = 1 then some (ai * 10 + bi) else none
    | _, _ => none
  | _ => none

/-- Rendering of a count of tenths with one fraction digit, the shape
produced by `toFixed(1)`. -/
def renderTenths (n : Nat) : String := toString (n / 10) ++ "." ++ toString (n % 10)

/-- Model of `(parseFloat(currentVersion) + 0.1).toFixed(1)` on the version
strings arising in the app (the initial "1.0" and outputs of this function):
on this domain IEEE-754 double arithmetic agrees with exact decimal
arithmetic in tenths, so the embedding is exact; outside the domain the
source would go through float parsing, which no reachable state exercises. -/
def incrementVersion (v : String) : String :=
  match parseTenths v with
  | some n => renderTenths (n + 1)
  | none => "NaN"

/-- SOP document row of the `nabh_sop_documents` collection (fields as listed
in the insert of `saveSOPDocument`; scalar columns are modelled as strings). -/
structure SOPDocument where
  id : String
  chapter_code : String
  chapter_name : String
  title : String
  description : String
  google_drive_url : String
  google_drive_file_id : String
  extracted_content : String
  version : String
  effective_date : String
  review_date : String
  category : String
  department : String
  author : String
  status : String
  tags : List String
  is_public : Bool
  created_by : String
  created_at : String
  updated_at : String
deriving DecidableEq

/-- Writable fields of an SOP document (`Omit<SOPDocument, 'id' | 'created_at'
| 'updated_at'>`). -/
structure SOPDocumentInput where
  chapter_code : String
  chapter_name : String
  title : String
  description : String
  google_drive_url : String
  google_drive_file_id : String
  extracted_content : String
  version : String
  effective_date : String
  review_date : String
  category : String
  department : String
  author : String
  status : String
  tags : List String
  is_public : Bool
  created_by : String
deriving DecidableEq

/-- Partial update of an SOP document (`Partial<...>`): every writable field
optional. -/
structure SOPDocumentPatch where
  chapter_code : Option String
  chapter_name : Option String
  title : Option String
  description : Option String
  google_drive_url : Option String
  google_drive_file_id : Option String
  extracted_content : Option String
  version : Option String
  effective_date : Option String
  review_date : Option String
  category : Option String
  department : Option String
  author : Option String
  status : Option String
  tags : Option (List String)
  is_public : Option Bool
  created_by : Option String
deriving DecidableEq

/-- Status column of the `nabh_document_levels` collection. -/
inductive DocStatus where
  | active
  | draft
  | archived
deriving DecidableEq

/-- Row of the `nabh_document_levels` collection (interface
`DocumentLevelItem`). -/
structure DocumentLevelItem where
  id : String
  level : Nat
  title : String
  description : Option String
  file_url : Option String
  file_type : Option String
  version : String
  status : DocStatus
  created_at : String
  updated_at : String
deriving DecidableEq

/-- Writable fields of a document-level item. -/
structure DocumentLevelItemInput where
  level : Nat
  title : String
  description : Option String
  file_url : Option String
  file_type : Option String
  version : String
  status : DocStatus
deriving DecidableEq

/-- Partial update of a document-level item. -/
structure DocumentLevelItemPatch where
  level : Option Nat
  title : Option String
  description : Option String
  file_url : Option String
  file_type : Option String
  version : Option String
  status : Option DocStatus
deriving DecidableEq

/-- Outcome of an awaited backend query that returns data: the promise
resolved with `error: null` and a row or row list (`ok`), resolved with a
non-null error object (`dbError`, subsequently thrown by the gateway function
and caught by its own handler), or rejected (`reject`).  The payload of the
two failure cases is the thrown value's message when it is an `Error`
instance, `none` otherwise. -/
inductive DbCall (α : Type) where
  | ok (d : α)
  | dbError (e : Option String)
  | reject (e : Option String)

/-- Outcome of an awaited backend delete, which returns no data. -/
inductive DbDeleteCall where
  | ok
  | dbError (e : Option String)
  | reject (e : Option String)

/-- Uniform result shape of the persistence gateway:
`{ success: boolean, data?: T, error?: string }`.  `data := none` models an
absent `data` member. -/
structure GatewayResult (α : Type) where
  success : Bool
  data : Option α
  error : Option String
deriving DecidableEq

/-- Message extraction of every gateway catch block:
`error instanceof Error ? error.message : 'Unknown error'`. -/
def caughtMessage (e : Option String) : String := e.getD "Unknown error"

/-- `saveSOPDocument` (sopStorage service): inserts the writable fields and
returns the inserted row, mapping any backend failure to `success:false`. -/
def saveSOPDocument (sop : SOPDocumentInput) (call : DbCall SOPDocument) :
    GatewayResult SOPDocument :=
  match sop, call with
  | _, .ok d => { success := true, data := some d, error := none }
  | _, .dbError e => { success := false, data := none, error := some (caughtMessage e) }
  | _, .reject e => { success := false, data := none, error := some (caughtMessage e) }

/-- `loadAllSOPs`: selects every row ordered by chapter code then title. -/
def loadAllSOPs (call : DbCall (List SOPDocument)) : GatewayResult (List SOPDocument) :=
  match call with
  | .ok d => { success := true, data := some d, error := none }
  | .dbError e => { success := false, data := none, error := some (caughtMessage e) }
  | .reject e => { success := false, data := none, error := some (caughtMessage e) }

/-- `loadSOPsByChapter`: selects the rows of one chapter ordered by title. -/
def loadSOPsByChapter (chapterCode : String) (call : DbCall (List SOPDocument)) :
    GatewayResult (List SOPDocument) :=
  match chapterCode, call with
  | _, .ok d => { success := true, data := some d, error := none }
  | _, .dbError e => { success := false, data := none, error := some (caughtMessage e) }
  | _, .reject e => { success := false, data := none, error := some (caughtMessage e) }

/-- `loadSOPById`: single-row fetch by id. -/
def loadSOPById (id : String) (call : DbCall SOPDocument) : GatewayResult SOPDocument :=
  match id, call with
  | _, .ok d => { success := true, data := some d, error := none }
  | _, .dbError e => { success := false, data := none, error := some (caughtMessage e) }
  | _, .reject e => { success := false, data := none, error := some (caughtMessage e) }

/-- `updateSOPDocument`: update by id returning the updated row. -/
def updateSOPDocument (id : String) (updates : SOPDocumentPatch)
    (call : DbCall SOPDocument) : GatewayResult SOPDocument :=
  match id, updates, call with
  | _, _, .ok d => { success := true, data := some d, error := none }
  | _, _, .dbError e => { success := false, data := none, error := some (caughtMessage e) }
  | _, _, .reject e => { success := false, data := none, error := some (caughtMessage e) }

/-- `deleteSOPDocument`: delete by id; the success result is `{ success: true }`
with no `data` and no `error` member. -/
def deleteSOPDocument (id : String) (call : DbDeleteCall) : GatewayResult Unit :=
  match id, call with
  | _, .ok => { success := true, data := none, error := none }
  | _, .dbError e => { success := false, data := none, error := some (caughtMessage e) }
  | _, .reject e => { success := false, data := none, error := some (caughtMessage e) }

/-- `searchSOPs`: substring search over title, description and content. -/
def searchSOPs (query : String) (call : DbCall (List SOPDocument)) :
    GatewayResult (List SOPDocument) :=
  match query, call with
  | _, .ok d => { success := true, data := some d, error := none }
  | _, .dbError e => { success := false, data := none, error := some (caughtMessage e) }
  | _, .reject e => { success := false, data := none, error := some (caughtMessage e) }

/-- `loadDocumentsByLevel` (documentLevels service). -/
def loadDocumentsByLevel (level : Nat) (call : DbCall (List DocumentLevelItem)) :
    GatewayResult (List DocumentLevelItem) :=
  match level, call with
  | _, .ok d => { success := true, data := some d, error := none }
  | _, .dbError e => { success := false, data := none, error := some (caughtMessage e) }
  | _, .reject e => { success := false, data := none, error := some (caughtMessage e) }

/-- `saveDocument` (documentLevels service). -/
def saveDocument (doc : DocumentLevelItemInput) (call : DbCall DocumentLevelItem) :
    GatewayResult DocumentLevelItem :=
  match doc, call with
  | _, .ok d => { success := true, data := some d, error := none }
  | _, .dbError e => { success := false, data := none, error := some (caughtMessage e) }
  | _, .reject e => { success := false, data := none, error := some (caughtMessage e) }

/-- `updateDocument` (documentLevels service). -/
def updateDocument (id : String) (updates : DocumentLevelItemPatch)
    (call : DbCall DocumentLevelItem) : GatewayResult DocumentLevelItem :=
  match id, updates, call with
  | _, _, .ok d => { success := true, data := some d, error := none }
  | _, _, .dbError e => { success := false, data := none, error := some (caughtMessage e) }
  | _, _, .reject e => { success := false, data := none, error := some (caughtMessage e) }

/-- `deleteDocument` (documentLevels service): the success result is
`{ success: true }` with no `data` and no `error` member. -/
def deleteDocument (id : String) (call : DbDeleteCall) : GatewayResult Unit :=
  match id, call with
  | _, .ok => { success := true, data := none, error := none }
  | _, .dbError e => { success := false, data := none, error := some (caughtMessage e) }
  | _, .reject e => { success := false, data := none, error := some (caughtMessage e) }

/-- `loadAllDocuments` (documentLevels service). -/
def loadAllDocuments (call : DbCall (List DocumentLevelItem)) :
    GatewayResult (List DocumentLevelItem) :=
  match call with
  | .ok d => { success := true, data := some d, error := none }
  | .dbError e => { success := false, data := none, error := some (caughtMessage e) }
  | .reject e => { success := false, data := none, error := some (caughtMessage e) }

/-- One text part of a generative-AI response candidate. -/
structure GeminiPart where
  text : Option String
deriving DecidableEq

/-- Content of a response candidate. -/
structure GeminiContent where
  parts : List GeminiPart
deriving DecidableEq

/-- One response candidate; `content` may be absent (for instance when the
candidate was blocked). -/
structure GeminiCandidate where
  content : Option GeminiContent
deriving DecidableEq

/-- Error object of a generative-AI error response body. -/
structure GeminiApiFault where
  message : String
deriving DecidableEq

/-- Parsed JSON body of a generative-AI response. -/
structure GeminiResp where
  error : Option GeminiApiFault
  candidates : List GeminiCandidate
deriving DecidableEq

/-- The optional-chaining extraction
`data.candidates?.[0]?.content?.parts?.[0]?.text || ''` (both an absent and an
empty text yield the empty string). -/
def firstCandidateText (r : GeminiResp) : String :=
  match r.candidates.head? with
  | none => ""
  | some c =>
    match c.content with
    | none => ""
    | some ct =>
      match ct.parts.head? with
      | none => ""
      | some p => p.text.getD ""

/-- Outcome of the awaited fetch of a text-only adapter call: the parsed JSON
body, or a rejection (network failure or body-parse failure) whose payload is
the thrown value's message when it is an `Error` instance. -/
inductive FetchCall (α : Type) where
  | reject (e : Option String)
  | resp (r : α)

/-- Outcome of the try block of a file-based adapter call: failure of the
`fileToBase64` read before any request is sent, rejection of the sent request,
or a parsed response body. -/
inductive FileFetchCall (α : Type) where
  | fileError
  | reject (e : Option String)
  | resp (r : α)

/-- Result of an adapter call together with whether a request to the
generative-AI endpoint was issued. -/
structure AdapterCall (β : Type) where
  sentRequest : Bool
  result : β
deriving DecidableEq

/-- Result shape of the extraction functions (interface `ExtractionResult`;
the unused `structuredData` member is omitted). -/
structure ExtractionResult where
  success : Bool
  text : String
  documentType : Option String
  error : Option String
deriving DecidableEq

/-- `extractTextFromImage` (documentExtractor service): fails fast when no
API credential is configured; otherwise sends one vision request and returns
the first candidate's text with `success: true` — the response body's `error`
member is not inspected on this path. -/
def extractTextFromImage (geminiApiKey : Option String) (fileMime : String)
    (prompt : Option String) (call : FileFetchCall GeminiResp) :
    AdapterCall ExtractionResult :=
  match geminiApiKey with
  | none =>
    { sentRequest := false
      result := { success := false, text := "", documentType := none
                  error := some "Gemini API key not configured" } }
  | some _ =>
    match fileMime, prompt, call with
    | _, _, .fileError =>
      { sentRequest := false
        result := { success := false, text := "", documentType := none
                    error := some "Failed to extract text from image" } }
    | _, _, .reject _ =>
      { sentRequest := true
        result := { success := false, text := "", documentType := none
                    error := some "Failed to extract text from image" } }
    | _, _, .resp r =>
      { sentRequest := true
        result := { success := true, text := firstCandidateText r
                    documentType := some "image", error := none } }

/-- `extractTextFromPDF`: as the image variant, but a response body carrying
an `error` member is mapped to `success: false` with
`data.error.message || 'Gemini API error'`. -/
def extractTextFromPDF (geminiApiKey : Option String) (fileMime : String)
    (prompt : Option String) (call : FileFetchCall GeminiResp) :
    AdapterCall ExtractionResult :=
  match geminiApiKey with
  | none =>
    { sentRequest := false
      result := { success := false, text := "", documentType := none
                  error := some "Gemini API key not configured" } }
  | some _ =>
    match fileMime, prompt, call with
    | _, _, .fileError =>
      { sentRequest := false
        result := { success := false, text := "", documentType := none
                    error := some "Failed to extract text from PDF" } }
    | _, _, .reject _ =>
      { sentRequest := true
        result := { success := false, text := "", documentType := none
                    error := some "Failed to extract text from PDF" } }
    | _, _, .resp r =>
      match r.error with
      | some fault =>
        { sentRequest := true
          result := { success := false, text := "", documentType := none
                      error := some (if fault.message = "" then "Gemini API error"
                                     else fault.message) } }
      | none =>
        { sentRequest := true
          result := { success := true, text := firstCandidateText r
                      documentType := some "pdf", error := none } }

/-- One section of a document analysis. -/
structure AnalysisSection where
  heading : String
  content : String
deriving DecidableEq

/-- Result shape of `analyzeDocument` (interface `DocumentAnalysis`; the
optional members not written by the function are omitted). -/
structure DocumentAnalysis where
  documentType : String
  title : Option String
  sections : List AnalysisSection
  keyValuePairs : Option (List (String × String))
  suggestions : Option (List String)
deriving DecidableEq

/-- `analyzeDocument`: with no credential it returns the degraded analysis
`{ documentType: 'unknown', sections: [] }` without a request; with one it
sends the category prompt and either returns the analysis assembled from a
successful JSON extraction of the response text (regex match plus
`JSON.parse`, an external computation modelled by the `parsed` argument, with
`none` covering both a failed match and a parse exception) or falls back to
wrapping the raw response text as a single section. -/
def analyzeDocument (geminiApiKey : Option String) (text documentCategory : String)
    (call : FetchCall GeminiResp) (parsed : Option DocumentAnalysis) :
    AdapterCall DocumentAnalysis :=
  match geminiApiKey with
  | none =>
    { sentRequest := false
      result := { documentType := "unknown", title := none, sections := []
                  keyValuePairs := none, suggestions := none } }
  | some _ =>
    match text, documentCategory, call with
    | _, _, .reject _ =>
      { sentRequest := true
        result := { documentType := "unknown", title := none, sections := []
                    keyValuePairs := none, suggestions := none } }
    | _, category, .resp r =>
      match parsed with
      | some a => { sentRequest := true, result := a }
      | none =>
        { sentRequest := true
          result := { documentType := category, title := none
                      sections := [{ heading := "Extracted Content"
                                     content := firstCandidateText r }]
                      keyValuePairs := none, suggestions := none } }

/-- `generateImprovedDocument`: with no credential it returns the empty
string without a request; otherwise it returns the capture of the fenced-HTML
regex over the response text when that regex matches (external match modelled
by the `htmlMatch` argument) and the raw response text otherwise; a rejection
yields the empty string. -/
def generateImprovedDocument (geminiApiKey : Option String)
    (extractedText documentCategory userSuggestions hospitalName : String)
    (call : FetchCall GeminiResp) (htmlMatch : Option String) :
    AdapterCall String :=
  match geminiApiKey with
  | none => { sentRequest := false, result := "" }
  | some _ =>
    match extractedText, documentCategory, userSuggestions, hospitalName, call with
    | _, _, _, _, .reject _ => { sentRequest := true, result := "" }
    | _, _, _, _, .resp r =>
      match htmlMatch with
      | some captured => { sentRequest := true, result := captured }
      | none => { sentRequest := true, result := firstCandidateText r }

/-- Doctype prefix prepended by `generateSOPFromContent` when the model
output does not already start with a doctype. -/
def doctypePrefix : String := "<!DOCTYPE html>\n<html lang=\"en\">\n"

/-- Fenced-code-marker stripping of `generateSOPFromContent`:
`sop.replace(/```html/gi, '').replace(/```/g, '')`. -/
def stripCodeFences (s : String) : String :=
  jsReplaceAll "```" "" (jsReplaceAllCI "```html" "" s)

/-- Post-processing of the model output in `generateSOPFromContent`: strip
fenced-code markers, trim, and prepend the doctype prefix unless the result
already starts with `<!doctype` case-insensitively. -/
def generateSOPPostprocess (raw : String) : String :=
  let sop := jsTrim (stripCodeFences raw)
  if jsStartsWith "<!doctype".data (lowerList sop.data) then sop
  else doctypePrefix ++ sop

/-- Result shape of `generateSOPFromContent`. -/
structure SOPGenResult where
  success : Bool
  sop : String
  error : Option String
deriving DecidableEq

/-- `generateSOPFromContent` (3rd-edition variant with an objective code):
fails fast with a configuration error when no credential is configured; an
error-bearing response body yields `success: false` with
`data.error.message || 'Gemini API error'`; otherwise the first candidate's
text is post-processed and returned with `success: true`. -/
def generateSOPFromContent (geminiApiKey : Option String)
    (pdfContent titlesInterpretation chapterCode chapterName : String)
    (customPrompt : Option String) (objectiveCode : Option String)
    (call : FetchCall GeminiResp) : AdapterCall SOPGenResult :=
  match geminiApiKey with
  | none =>
    { sentRequest := false
      result := { success := false, sop := ""
                  error := some "Gemini API key not configured" } }
  | some _ =>
    match pdfContent, titlesInterpretation, chapterCode, chapterName,
        customPrompt, objectiveCode, call with
    | _, _, _, _, _, _, .reject e =>
      { sentRequest := true
        result := { success := false, sop := ""
                    error := some (e.getD "Failed to generate SOP") } }
    | _, _, _, _, _, _, .resp r =>
      match r.error with
      | some fault =>
        { sentRequest := true
          result := { success := false, sop := ""
                      error := some (if fault.message = "" then "Gemini API error"
                                     else fault.message) } }
      | none =>
        { sentRequest := true
          result := { success := true
                      sop := generateSOPPostprocess (firstCandidateText r)
                      error := none } }

/-- Result shape of `filterRelevantContent`. -/
structure FilterResult where
  success : Bool
  filteredText : Option String
  error : Option String
deriving DecidableEq

/-- `filterRelevantContent`: validates that the old SOP text is non-empty
after trimming and otherwise calls the secure backend proxy
(`callGeminiAPI`).  The function never reads the frontend credential (source
comment: "no API key needed in frontend"); the `geminiApiKey` argument
records the ambient configuration only to state that the behaviour is
independent of it. -/
def filterRelevantContent (geminiApiKey : Option String)
    (oldSOPText objectiveCode objectiveTitle interpretation : String)
    (customFilterPrompt : Option String) (call : FetchCall GeminiResp) :
    AdapterCall FilterResult :=
  match geminiApiKey with
  | _ =>
    if oldSOPText = "" ∨ (jsTrim oldSOPText).length = 0 then
      { sentRequest := false
        result := { success := false, filteredText := none
                    error := some "No old SOP text provided to filter" } }
    else
      match objectiveCode, objectiveTitle, interpretation, customFilterPrompt, call with
      | _, _, _, _, .reject e =>
        { sentRequest := true
          result := { success := false, filteredText := none
                      error := some (e.getD "Failed to filter content") } }
      | _, _, _, _, .resp r =>
        { sentRequest := true
          result := { success := true, filteredText := some (firstCandidateText r)
                      error := none } }

/-- Objective row loaded by `loadObjectiveEditsByChapter` as read by
`handleObjectiveChange` (the row is dynamically typed in the source; the two
read fields may be null, defaulted with `|| ''`). -/
structure ObjectiveEdit where
  objective_code : String
  title : Option String
  interpretations2 : Option String
deriving DecidableEq

/-- Row of the `nabh_generated_sops` collection as read by
`handleObjectiveChange` (type `GeneratedSOP`; only the read fields are
modelled, with JavaScript truthiness of the content as non-emptiness). -/
structure GeneratedSOPRow where
  chapter_code : String
  objective_code : String
  sop_html_content : String
  pdf_url : Option String
deriving DecidableEq

/-- One entry of the in-memory version history
(`{id: string, version: string, content: string, timestamp: Date}`). -/
structure SOPVersionEntry where
  id : String
  version : String
  content : String
  timestampMs : Int
deriving DecidableEq

/-- The component state variables of the 3rd-edition SOP pipeline screen that
the modelled handlers write (each is an independent `useState` variable in
the source; the variables only read by the handlers — the objective list and
the selected chapter code — are passed as arguments). -/
structure PipelineState where
  selectedObjective : String
  objectiveTitle : String
  interpretation : String
  filteredContent : String
  mergedContent : String
  finalSOP : String
  directEditContent : String
  existingSOP : Option GeneratedSOPRow
  sopVersions : List SOPVersionEntry
  currentVersion : String
deriving DecidableEq

/-- `handleMergeAll` (F6 of the pipeline screen): concatenates the sections
whose source state is non-empty (JavaScript truthiness), each with its
header, and stores the trimmed result; with nothing to merge it reports an
error and stores nothing (`none`). -/
def handleMergeAll (objectiveTitle interpretation filteredContent : String) :
    Option String :=
  let merged :=
    (if objectiveTitle ≠ "" then "=== TITLE (F3) ===\n" ++ objectiveTitle ++ "\n\n" else "") ++
    (if interpretation ≠ "" then "=== INTERPRETATION (F4) ===\n" ++ interpretation ++ "\n\n" else "") ++
    (if filteredContent ≠ "" then "=== FILTERED RELEVANT CONTENT (F5) ===\n" ++ filteredContent ++ "\n" else "")
  if merged ≠ "" then some (jsTrim merged) else none

/-- `handleSOPUpdate` (improvement-chat acceptance): computes the next
version string, appends the new version entry to the in-memory history and
replaces the displayed SOP content.  `nowMs` is `Date.now()`. -/
def handleSOPUpdate (updatedSOP : String) (nowMs : Int) (st : PipelineState) :
    PipelineState :=
  let newVersionNumber := incrementVersion st.currentVersion
  { st with
    sopVersions := st.sopVersions ++
      [{ id := toString nowMs, version := newVersionNumber
         content := updatedSOP, timestampMs := nowMs }]
    currentVersion := newVersionNumber
    finalSOP := updatedSOP
    directEditContent := updatedSOP }

/-- `handleObjectiveChange` (pipeline screen): records the selection,
auto-populates title and interpretation from the objective list, clears every
downstream stage output, and then — when both an objective and a chapter are
selected — loads the most recent previously generated SOP for the pair
(`lookup` is the outcome of the `single()` query: `some` when it resolved
with a row and no error). -/
def handleObjectiveChange (objectiveCode : String) (objectives : List ObjectiveEdit)
    (selectedChapterCode : String) (lookup : Option GeneratedSOPRow)
    (st : PipelineState) : PipelineState :=
  let st1 := { st with selectedObjective := objectiveCode }
  let st2 :=
    match objectives.find? (fun o => o.objective_code == objectiveCode) with
    | some obj =>
      { st1 with objectiveTitle := obj.title.getD ""
                 interpretation := obj.interpretations2.getD "" }
    | none => { st1 with objectiveTitle := "", interpretation := "" }
  let st3 := { st2 with filteredContent := "", mergedContent := ""
                        finalSOP := "", directEditContent := "", existingSOP := none }
  if objectiveCode ≠ "" ∧ selectedChapterCode ≠ "" then
    match lookup with
    | some row =>
      let st4 := { st3 with existingSOP := some row }
      if row.sop_html_content ≠ "" then
        { st4 with finalSOP := row.sop_html_content
                   directEditContent := row.sop_html_content }
      else st4
    | none => st3
  else st3

/-- Sections of the merge output as the specification words them: header plus
body for each non-empty input, in the fixed order title, interpretation,
filtered (with the headers the code actually uses). -/
def mergeSections (title interp filtered : String) : List String :=
  (if title ≠ "" then ["=== TITLE (F3) ===\n" ++ title] else []) ++
  (if interp ≠ "" then ["=== INTERPRETATION (F4) ===\n" ++ interp] else []) ++
  (if filtered ≠ "" then ["=== FILTERED RELEVANT CONTENT (F5) ===\n" ++ filtered] else [])

/-- Join a list of sections with blank lines between them. -/
def joinBlankLine : List String → String
  | [] => ""
  | [s] => s
  | s :: rest => s ++ "\n\n" ++ joinBlankLine rest

/-- Merge output as the specification words it (amended to the code's
headers): the non-empty sections joined by blank lines, trimmed. -/
def mergeSpecFormat (title interp filtered : String) : String :=
  jsTrim (joinBlankLine (mergeSections title interp filtered))

/-- Shape predicate for the claim "two-digit day, abbreviated month name,
four-digit year": the string splits as day, space, month, space, year with a
two-digit all-digit day, a month abbreviation of the en-GB locale and a
four-digit all-digit year. -/
def DDMonYYYYShape (s : String) : Prop :=
  ∃ dd mon yyyy : String,
    s = dd ++ " " ++ mon ++ " " ++ yyyy ∧
    dd.length = 2 ∧ (∀ c ∈ dd.data, c.isDigit) ∧
    mon ∈ monthAbbrevsEnGB ∧
    yyyy.length = 4 ∧ (∀ c ∈ yyyy.data, c.isDigit)

/-- The fenced-code marker, three backticks, as a character list. -/
def tickPat : List Char := ['`', '`', '`']

/-- The backtick-removal pass of `stripCodeFences` on character lists:
`replace(/```/g, '')`. -/
def strip3 (s : List Char) : List Char := replaceAllG chEq '`' ['`', '`'] [] s

/-- Number of leading backticks of a character list. -/
def leadTicks : List Char → Nat
  | [] => 0
  | c :: rest => if c = '`' then leadTicks rest + 1 else 0

theorem dropWS_ws_cons (c : Char) (l : List Char) (h : jsWhitespace c = true) :
    dropWS (c :: l) = dropWS l := by
  simp [dropWS, List.dropWhile_cons, h]

theorem dropWS_all (l : List Char) (h : ∀ c ∈ l, jsWhitespace c = true) :
    dropWS l = [] := by
  simpa [dropWS, List.dropWhile_eq_nil_iff] using h

theorem dropWS_head_false : ∀ (l : List Char) (c : Char) (t : List Char),
    dropWS l = c :: t → jsWhitespace c = false := by
  intro l
  induction l with
  | nil => intro c t h; simp [dropWS] at h
  | cons a rest ih =>
    intro c t h
    by_cases ha : jsWhitespace a = true
    · rw [dropWS_ws_cons a rest ha] at h
      exact ih c t h
    · have ha' : jsWhitespace a = false := by simpa using ha
      simp [dropWS, List.dropWhile_cons, ha'] at h
      obtain ⟨rfl, -⟩ := h
      exact ha'

theorem dropWS_idem (l : List Char) : dropWS (dropWS l) = dropWS l := by
  cases hdl : dropWS l with
  | nil => simp [dropWS]
  | cons c t =>
    have hc := dropWS_head_false l c t hdl
    simp [dropWS, List.dropWhile_cons, hc]

theorem rtrimWS_starts (l : List Char) : rtrimWS l <+: l := by
  unfold rtrimWS
  conv_rhs => rw [← List.reverse_reverse l]
  exact List.reverse_prefix.mpr (List.dropWhile_suffix _)

theorem jsTrimList_all_ws (l : List Char) (h : ∀ c ∈ l, jsWhitespace c = true) :
    jsTrimList l = [] := by
  unfold jsTrimList
  rw [dropWS_all l h]
  rfl

theorem jsTrimList_append_ws (l : List Char) (c : Char) (hc : jsWhitespace c = true) :
    jsTrimList (l ++ [c]) = jsTrimList l := by
  unfold jsTrimList
  cases hdl : dropWS l with
  | nil =>
    have h1 : dropWS (l ++ [c]) = [] := by
      have hall : ∀ x ∈ l, jsWhitespace x = true := by
        simpa [dropWS, List.dropWhile_eq_nil_iff] using hdl
      refine dropWS_all _ ?_
      intro x hx
      rcases List.mem_append.mp hx with hx | hx
      · exact hall x hx
      · simp at hx; subst hx; exact hc
    rw [h1]
  | cons d t =>
    have h1 : dropWS (l ++ [c]) = (d :: t) ++ [c] := by
      unfold dropWS at hdl ⊢
      rw [List.dropWhile_append, hdl]
      simp
    rw [h1]
    unfold rtrimWS
    rw [List.reverse_append]
    simp only [List.reverse_cons, List.reverse_nil, List.nil_append, List.singleton_append]
    rw [dropWS_ws_cons c _ hc]

theorem jsTrimList_idem (l : List Char) : jsTrimList (jsTrimList l) = jsTrimList l := by
  have hstep1 : dropWS (jsTrimList l) = jsTrimList l := by
    cases hm : jsTrimList l with
    | nil => simp [dropWS]
    | cons c t =>
      have hpfx : jsTrimList l <+: dropWS l := by
        unfold jsTrimList
        exact rtrimWS_starts (dropWS l)
      rw [hm] at hpfx
      obtain ⟨u, hu⟩ := hpfx
      have hc : jsWhitespace c = false := by
        apply dropWS_head_false l c (t ++ u)
        rw [← hu]
        simp
      simp [dropWS, List.dropWhile_cons, hc]
  have hstep2 : rtrimWS (jsTrimList l) = jsTrimList l := by
    unfold jsTrimList rtrimWS
    rw [List.reverse_reverse, dropWS_idem]
  show rtrimWS (dropWS (jsTrimList l)) = jsTrimList l
  rw [hstep1]
  exact hstep2

theorem jsTrim_append_nl (s : String) : jsTrim (s ++ "\n") = jsTrim s := by
  apply String.ext
  show jsTrimList (s ++ "\n").data = jsTrimList s.data
  rw [String.data_append]
  exact jsTrimList_append_ws s.data '\n' (by decide)

theorem jsTrim_idem (s : String) : jsTrim (jsTrim s) = jsTrim s := by
  apply String.ext
  exact jsTrimList_idem s.data

theorem append_ne_empty_left (s t : String) (h : s ≠ "") : s ++ t ≠ "" := by
  intro he
  apply h
  have hd := congrArg String.data he
  rw [String.data_append] at hd
  have hs : s.data = [] := (List.append_eq_nil.mp hd).1
  exact String.ext hs

theorem jsTrimList_inside (l : List Char) : jsTrimList l <:+: l :=
  (rtrimWS_starts (dropWS l)).isInfix.trans (List.dropWhile_suffix _).isInfix

theorem matchesPfx_chEq (pat : List Char) : ∀ s, matchesPfx chEq pat s = pat.isPrefixOf s := by
  induction pat with
  | nil => intro s; cases s <;> rfl
  | cons a as ih =>
    intro s
    cases s with
    | nil => rfl
    | cons b bs =>
      show (chEq a b && matchesPfx chEq as bs) = (a == b && as.isPrefixOf bs)
      rw [ih]
      rfl

theorem strip3_nil : strip3 [] = [] := by
  unfold strip3
  rw [replaceAllG]

theorem strip3_cons_match (t : List Char) : strip3 ('`' :: '`' :: '`' :: t) = strip3 t := by
  unfold strip3
  rw [replaceAllG]
  simp [matchesPfx, chEq]

theorem strip3_cons_nomatch (c : Char) (rest : List Char)
    (h : matchesPfx chEq ['`', '`', '`'] (c :: rest) = false) :
    strip3 (c :: rest) = c :: strip3 rest := by
  unfold strip3
  rw [replaceAllG]
  simp [h]

theorem leadTicks_le_one (rest : List Char)
    (h : matchesPfx chEq ['`', '`'] rest = false) : leadTicks rest ≤ 1 := by
  cases rest with
  | nil => simp [leadTicks]
  | cons r1 rest2 =>
    by_cases h1 : r1 = '`'
    · subst h1
      cases rest2 with
      | nil => simp [leadTicks]
      | cons r2 rest3 =>
        by_cases h2 : r2 = '`'
        · subst h2
          simp [matchesPfx, chEq] at h
        · simp [leadTicks, h2]
    · simp [leadTicks, h1]

theorem leadTicks_ge_two_of_pfx (l : List Char) (h : ['`', '`'] <+: l) :
    2 ≤ leadTicks l := by
  obtain ⟨t, rfl⟩ := h
  simp [leadTicks]

theorem tickPat_prefix_cons (X : List Char) (h : tickPat <+: '`' :: X) :
    ['`', '`'] <+: X := by
  obtain ⟨t, ht⟩ := h
  have h2 : '`' :: '`' :: '`' :: t = '`' :: X := ht
  injection h2 with h3 h4
  exact ⟨t, h4⟩

theorem strip3_spec : ∀ (n : Nat) (s : List Char), s.length ≤ n →
    leadTicks (strip3 s) ≤ leadTicks s ∧ ¬ tickPat <:+: strip3 s := by
  intro n
  induction n with
  | zero =>
    intro s hs
    have hnil : s = [] := List.length_eq_zero.mp (Nat.le_zero.mp hs)
    subst hnil
    rw [strip3_nil]
    refine ⟨le_rfl, ?_⟩
    intro hinf
    have : tickPat = [] := by simpa using hinf
    simp [tickPat] at this
  | succ n ih =>
    intro s hs
    cases s with
    | nil =>
      rw [strip3_nil]
      refine ⟨le_rfl, ?_⟩
      intro hinf
      have : tickPat = [] := by simpa using hinf
      simp [tickPat] at this
    | cons c rest =>
      by_cases hm : matchesPfx chEq ['`', '`', '`'] (c :: rest) = true
      · have hpfx : ['`', '`', '`'] <+: c :: rest := by
          rw [matchesPfx_chEq] at hm
          exact List.isPrefixOf_iff_prefix.mp hm
        obtain ⟨t, ht⟩ := hpfx
        have h2 : '`' :: '`' :: '`' :: t = c :: rest := ht
        injection h2 with h3 h4
        subst h3
        subst h4
        rw [strip3_cons_match]
        have hlen : t.length ≤ n := by
          simp only [List.length_cons] at hs
          omega
        obtain ⟨ih1, ih2⟩ := ih t hlen
        refine ⟨?_, ih2⟩
        have he : leadTicks ('`' :: '`' :: '`' :: t) = leadTicks t + 3 := by
          simp [leadTicks]
        rw [he]
        omega
      · have hm' : matchesPfx chEq ['`', '`', '`'] (c :: rest) = false := by
          simpa using hm
        rw [strip3_cons_nomatch c rest hm']
        have hlen : rest.length ≤ n := by
          simp only [List.length_cons] at hs
          omega
        obtain ⟨ih1, ih2⟩ := ih rest hlen
        by_cases hc : c = '`'
        · subst hc
          have hrest : matchesPfx chEq ['`', '`'] rest = false := by
            simpa [matchesPfx, chEq] using hm'
          have hr1 : leadTicks rest ≤ 1 := leadTicks_le_one rest hrest
          constructor
          · have he1 : leadTicks ('`' :: strip3 rest) = leadTicks (strip3 rest) + 1 := by
              simp [leadTicks]
            have he2 : leadTicks ('`' :: rest) = leadTicks rest + 1 := by
              simp [leadTicks]
            rw [he1, he2]
            omega
          · intro hinf
            rcases List.infix_cons_iff.mp hinf with hpre | hinf2
            · have hpfx2 := tickPat_prefix_cons _ hpre
              have hge := leadTicks_ge_two_of_pfx _ hpfx2
              omega
            · exact ih2 hinf2
        · constructor
          · simp [leadTicks, hc]
          · intro hinf
            rcases List.infix_cons_iff.mp hinf with hpre | hinf2
            · have : ('`' : Char) = c := (List.cons_prefix_cons.mp hpre).1
              exact hc this.symm
            · exact ih2 hinf2

theorem strip3_no_triple (s : List Char) : ¬ tickPat <:+: strip3 s :=
  (strip3_spec s.length s le_rfl).2

theorem hinnant_doy_le (doe : Nat) (h : doe ≤ 146096) :
    doe - (365 * ((doe - doe / 1460 + doe / 36524 - doe / 146096) / 365)
      + ((doe - doe / 1460 + doe / 36524 - doe / 146096) / 365) / 4
      - ((doe - doe / 1460 + doe / 36524 - doe / 146096) / 365) / 100) ≤ 365 := by
  obtain ⟨y, hy⟩ : ∃ y, (doe - doe / 1460 + doe / 36524 - doe / 146096) / 365 = y := ⟨_, rfl⟩
  rw [hy]
  obtain ⟨e, he⟩ : ∃ e, doe / 36524 = e := ⟨_, rfl⟩
  obtain ⟨f, hf⟩ : ∃ f, doe / 146096 = f := ⟨_, rfl⟩
  obtain ⟨cq, hcq⟩ : ∃ cq, y / 100 = cq := ⟨_, rfl⟩
  have he4 : e ≤ 4 := by omega
  have hf1 : f ≤ 1 := by omega
  have hc3 : cq ≤ 3 := by omega
  interval_cases cq <;> interval_cases f <;> interval_cases e <;> omega

theorem civilFromDays_bounds (z : Int) :
    1 ≤ (civilFromDays z).2.1 ∧ (civilFromDays z).2.1 ≤ 12 ∧
    1 ≤ (civilFromDays z).2.2 ∧ (civilFromDays z).2.2 ≤ 31 := by
  unfold civilFromDays
  dsimp only
  obtain ⟨doe, hdoe⟩ : ∃ doe : Nat,
      (z + 719468 - (z + 719468) / 146097 * 146097).toNat = doe := ⟨_, rfl⟩
  rw [hdoe]
  have hle : doe ≤ 146096 := by omega
  obtain ⟨doy, hdoy⟩ : ∃ doy : Nat,
      doe - (365 * ((doe - doe / 1460 + doe / 36524 - doe / 146096) / 365)
        + ((doe - doe / 1460 + doe / 36524 - doe / 146096) / 365) / 4
        - ((doe - doe / 1460 + doe / 36524 - doe / 146096) / 365) / 100) = doy := ⟨_, rfl⟩
  have hdoyle : doy ≤ 365 := by
    rw [← hdoy]
    exact hinnant_doy_le doe hle
  rw [hdoy]
  split <;> omega

theorem digitChar_isDigit (k : Nat) : (digitChar k).isDigit = true := by
  unfold digitChar
  obtain ⟨j, hj⟩ : ∃ j, k % 10 = j := ⟨_, rfl⟩
  have hlt : j < 10 := by omega
  rw [hj]
  interval_cases j <;> decide

theorem natDigits_one (n : Nat) (h : n < 10) : natDigits n = [digitChar n] := by
  unfold natDigits
  rw [natDigitsAux, dif_pos h]

theorem natDigits_two (n : Nat) (h1 : 10 ≤ n) (h2 : n ≤ 99) :
    natDigits n = [digitChar (n / 10), digitChar (n % 10)] := by
  unfold natDigits
  rw [natDigitsAux, dif_neg (by omega)]
  rw [natDigitsAux, dif_pos (by omega : n / 10 < 10)]

theorem natDigits_four (n : Nat) (h1 : 1000 ≤ n) (h2 : n ≤ 9999) :
    natDigits n = [digitChar (n / 10 / 10 / 10), digitChar (n / 10 / 10 % 10),
      digitChar (n / 10 % 10), digitChar (n % 10)] := by
  unfold natDigits
  rw [natDigitsAux, dif_neg (by omega)]
  rw [natDigitsAux, dif_neg (by omega : ¬ n / 10 < 10)]
  rw [natDigitsAux, dif_neg (by omega : ¬ n / 10 / 10 < 10)]
  rw [natDigitsAux, dif_pos (by omega : n / 10 / 10 / 10 < 10)]

theorem pad2_shape (d : Nat) (h2 : d ≤ 31) :
    (pad2 d).length = 2 ∧ ∀ c ∈ (pad2 d).data, c.isDigit = true := by
  unfold pad2
  by_cases h : d < 10
  · rw [if_pos h]
    constructor
    · show (("0" ++ natDecStr d).data).length = 2
      rw [String.data_append]
      show ('0' :: natDigits d).length = 2
      rw [natDigits_one d h]
      rfl
    · intro c hc
      rw [String.data_append] at hc
      rcases List.mem_append.mp hc with hc | hc
      · simp only [show ("0" : String).data = ['0'] from rfl] at hc
        simp at hc
        subst hc
        decide
      · show c.isDigit = true
        have : c ∈ natDigits d := hc
        rw [natDigits_one d h] at this
        simp at this
        subst this
        exact digitChar_isDigit d
  · rw [if_neg h]
    have h1 : 10 ≤ d := by omega
    constructor
    · show (natDigits d).length = 2
      rw [natDigits_two d h1 (by omega)]
      rfl
    · intro c hc
      have : c ∈ natDigits d := hc
      rw [natDigits_two d h1 (by omega)] at this
      rcases List.mem_cons.mp this with hcc | hcc
      · subst hcc; exact digitChar_isDigit _
      · simp at hcc
        subst hcc
        exact digitChar_isDigit _

theorem yearNumericStr_shape (y : Int) (h1 : 1000 ≤ y) (h2 : y ≤ 9999) :
    (yearNumericStr y).length = 4 ∧ ∀ c ∈ (yearNumericStr y).data, c.isDigit = true := by
  unfold yearNumericStr
  rw [if_neg (by omega)]
  have hb1 : 1000 ≤ y.toNat := by omega
  have hb2 : y.toNat ≤ 9999 := by omega
  have h4 := natDigits_four y.toNat hb1 hb2
  constructor
  · show (natDigits y.toNat).length = 4
    rw [h4]
    rfl
  · intro c hc
    have : c ∈ natDigits y.toNat := hc
    rw [h4] at this
    simp only [List.mem_cons, List.not_mem_nil, or_false] at this
    rcases this with h | h | h | h <;> (subst h; exact digitChar_isDigit _)

theorem month_getD_mem (m : Nat) (h1 : 1 ≤ m) (h2 : m ≤ 12) :
    monthAbbrevsEnGB.getD (m - 1) "" ∈ monthAbbrevsEnGB := by
  interval_cases m <;> decide

theorem formatDateEnGB_shape (tzOffsetMs t : Int)
    (h1 : 1000 ≤ (civilFromDays (civilDayOf tzOffsetMs t)).1)
    (h2 : (civilFromDays (civilDayOf tzOffsetMs t)).1 ≤ 9999) :
    DDMonYYYYShape (formatDateEnGB tzOffsetMs t) := by
  have hb := civilFromDays_bounds (civilDayOf tzOffsetMs t)
  rcases hp : civilFromDays (civilDayOf tzOffsetMs t) with ⟨y, m, d⟩
  rw [hp] at h1 h2 hb
  simp only at h1 h2 hb
  unfold formatDateEnGB
  rw [hp]
  obtain ⟨hm1, hm2, hd1, hd2⟩ := hb
  refine ⟨pad2 d, monthAbbrevsEnGB.getD (m - 1) "", yearNumericStr y, rfl, ?_, ?_, ?_, ?_, ?_⟩
  · exact (pad2_shape d hd2).1
  · exact (pad2_shape d hd2).2
  · exact month_getD_mem m hm1 hm2
  · exact (yearNumericStr_shape y h1 h2).1
  · exact (yearNumericStr_shape y h1 h2).2

theorem infix_append_right (pat a b : List Char) (hne : pat ≠ [])
    (hmem : ∀ c ∈ pat, c ∉ a) (h : pat <:+: a ++ b) : pat <:+: b := by
  induction a with
  | nil => simpa using h
  | cons x xs ih =>
    rw [List.cons_append] at h
    rcases List.infix_cons_iff.mp h with hpre | hinf
    · cases pat with
      | nil => exact absurd rfl hne
      | cons p ps =>
        have hx : p = x := (List.cons_prefix_cons.mp hpre).1
        have hp : p ∉ x :: xs := hmem p (by simp)
        rw [hx] at hp
        exact absurd (by simp) hp
    · exact ih (fun c hc hmem2 => hmem c hc (by simp [hmem2])) hinf

theorem replace_dot_map (l : List Char) :
    replaceAllG chEq '.' [] "-".data l = l.map (fun c => if c = '.' then '-' else c) := by
  induction l with
  | nil => rw [replaceAllG]; rfl
  | cons c rest ih =>
    rw [replaceAllG]
    by_cases hc : c = '.'
    · subst hc
      rw [if_pos (by simp [matchesPfx, chEq])]
      simp only [List.length_nil, List.drop_zero, List.map_cons, if_pos rfl]
      rw [ih]
      rfl
    · rw [if_neg (by simp [matchesPfx, chEq]; exact fun h => hc h.symm)]
      simp only [List.map_cons, if_neg hc]
      rw [ih]

/-- C2 counterexample: a successful delete resolves to `{ success: true }`
with both `data` and `error` absent, in both gateway services, contradicting
"never a result where both data and error are absent". -/
theorem delete_success_both_absent :
    (deleteSOPDocument "sop-1" DbDeleteCall.ok).success = true ∧
    (deleteSOPDocument "sop-1" DbDeleteCall.ok).data = none ∧
    (deleteSOPDocument "sop-1" DbDeleteCall.ok).error = none ∧
    (deleteDocument "doc-1" DbDeleteCall.ok).success = true ∧
    (deleteDocument "doc-1" DbDeleteCall.ok).data = none ∧
    (deleteDocument "doc-1" DbDeleteCall.ok).error = none :=
  ⟨rfl, rfl, rfl, rfl, rfl, rfl⟩

/-- C2 (amended): every persistence-gateway function maps every backend
outcome to exactly one of the two result shapes and never throws past its
boundary: the data-returning functions yield `{success:true, data}` on
success and `{success:false, error}` (data absent) on any backend error or
rejection; the two delete functions yield the same failure shape but
`{success:true}` with both `data` and `error` absent on success. -/
theorem gateway_result_shape :
    (∀ (sop : SOPDocumentInput) (call : DbCall SOPDocument),
      ((saveSOPDocument sop call).success = true ∧
        ((saveSOPDocument sop call).data).isSome = true ∧
        (saveSOPDocument sop call).error = none) ∨
      ((saveSOPDocument sop call).success = false ∧
        (saveSOPDocument sop call).data = none ∧
        ((saveSOPDocument sop call).error).isSome = true)) ∧
    (∀ call : DbCall (List SOPDocument),
      ((loadAllSOPs call).success = true ∧ ((loadAllSOPs call).data).isSome = true ∧
        (loadAllSOPs call).error = none) ∨
      ((loadAllSOPs call).success = false ∧ (loadAllSOPs call).data = none ∧
        ((loadAllSOPs call).error).isSome = true)) ∧
    (∀ (chapterCode : String) (call : DbCall (List SOPDocument)),
      ((loadSOPsByChapter chapterCode call).success = true ∧
        ((loadSOPsByChapter chapterCode call).data).isSome = true ∧
        (loadSOPsByChapter chapterCode call).error = none) ∨
      ((loadSOPsByChapter chapterCode call).success = false ∧
        (loadSOPsByChapter chapterCode call).data = none ∧
        ((loadSOPsByChapter chapterCode call).error).isSome = true)) ∧
    (∀ (id : String) (call : DbCall SOPDocument),
      ((loadSOPById id call).success = true ∧ ((loadSOPById id call).data).isSome = true ∧
        (loadSOPById id call).error = none) ∨
      ((loadSOPById id call).success = false ∧ (loadSOPById id call).data = none ∧
        ((loadSOPById id call).error).isSome = true)) ∧
    (∀ (id : String) (updates : SOPDocumentPatch) (call : DbCall SOPDocument),
      ((updateSOPDocument id updates call).success = true ∧
        ((updateSOPDocument id updates call).data).isSome = true ∧
        (updateSOPDocument id updates call).error = none) ∨
      ((updateSOPDocument id updates call).success = false ∧
        (updateSOPDocument id updates call).data = none ∧
        ((updateSOPDocument id updates call).error).isSome = true)) ∧
    (∀ (id : String) (call : DbDeleteCall),
      ((deleteSOPDocument id call).success = true ∧
        (deleteSOPDocument id call).data = none ∧
        (deleteSOPDocument id call).error = none) ∨
      ((deleteSOPDocument id call).success = false ∧
        (deleteSOPDocument id call).data = none ∧
        ((deleteSOPDocument id call).error).isSome = true)) ∧
    (∀ (query : String) (call : DbCall (List SOPDocument)),
      ((searchSOPs query call).success = true ∧ ((searchSOPs query call).data).isSome = true ∧
        (searchSOPs query call).error = none) ∨
      ((searchSOPs query call).success = false ∧ (searchSOPs query call).data = none ∧
        ((searchSOPs query call).error).isSome = true)) ∧
    (∀ (level : Nat) (call : DbCall (List DocumentLevelItem)),
      ((loadDocumentsByLevel level call).success = true ∧
        ((loadDocumentsByLevel level call).data).isSome = true ∧
        (loadDocumentsByLevel level call).error = none) ∨
      ((loadDocumentsByLevel level call).success = false ∧
        (loadDocumentsByLevel level call).data = none ∧
        ((loadDocumentsByLevel level call).error).isSome = true)) ∧
    (∀ (doc : DocumentLevelItemInput) (call : DbCall DocumentLevelItem),
      ((saveDocument doc call).success = true ∧ ((saveDocument doc call).data).isSome = true ∧
        (saveDocument doc call).error = none) ∨
      ((saveDocument doc call).success = false ∧ (saveDocument doc call).data = none ∧
        ((saveDocument doc call).error).isSome = true)) ∧
    (∀ (id : String) (updates : DocumentLevelItemPatch) (call : DbCall DocumentLevelItem),
      ((updateDocument id updates call).success = true ∧
        ((updateDocument id updates call).data).isSome = true ∧
        (updateDocument id updates call).error = none) ∨
      ((updateDocument id updates call).success = false ∧
        (updateDocument id updates call).data = none ∧
        ((updateDocument id updates call).error).isSome = true)) ∧
    (∀ (id : String) (call : DbDeleteCall),
      ((deleteDocument id call).success = true ∧ (deleteDocument id call).data = none ∧
        (deleteDocument id call).error = none) ∨
      ((deleteDocument id call).success = false ∧ (deleteDocument id call).data = none ∧
        ((deleteDocument id call).error).isSome = true)) ∧
    (∀ call : DbCall (List DocumentLevelItem),
      ((loadAllDocuments call).success = true ∧ ((loadAllDocuments call).data).isSome = true ∧
        (loadAllDocuments call).error = none) ∨
      ((loadAllDocuments call).success = false ∧ (loadAllDocuments call).data = none ∧
        ((loadAllDocuments call).error).isSome = true)) := by
  refine ⟨?_, ?_, ?_, ?_, ?_, ?_, ?_, ?_, ?_, ?_, ?_, ?_⟩
  · intro sop call; cases call <;> simp [saveSOPDocument]
  · intro call; cases call <;> simp [loadAllSOPs]
  · intro chapterCode call; cases call <;> simp [loadSOPsByChapter]
  · intro id call; cases call <;> simp [loadSOPById]
  · intro id updates call; cases call <;> simp [updateSOPDocument]
  · intro id call; cases call <;> simp [deleteSOPDocument]
  · intro query call; cases call <;> simp [searchSOPs]
  · intro level call; cases call <;> simp [loadDocumentsByLevel]
  · intro doc call; cases call <;> simp [saveDocument]
  · intro id updates call; cases call <;> simp [updateDocument]
  · intro id call; cases call <;> simp [deleteDocument]
  · intro call; cases call <;> simp [loadAllDocuments]

/-- C3: for every objective code, title, interpretation and optional custom
prompt, `filterRelevantContent` called with a source text that is empty or
consists only of whitespace returns `success: false` with the validation
error message and issues no network call, whatever the proxy would have
answered. -/
theorem filterRelevantContent_empty_rejects
    (geminiApiKey : Option String)
    (oldSOPText objectiveCode objectiveTitle interpretation : String)
    (customFilterPrompt : Option String) (call : FetchCall GeminiResp)
    (hws : ∀ c ∈ oldSOPText.data, jsWhitespace c = true) :
    filterRelevantContent geminiApiKey oldSOPText objectiveCode objectiveTitle
        interpretation customFilterPrompt call =
      { sentRequest := false
        result := { success := false, filteredText := none
                    error := some "No old SOP text provided to filter" } } := by
  have htrim : (jsTrim oldSOPText).length = 0 := by
    show (jsTrimList oldSOPText.data).length = 0
    rw [jsTrimList_all_ws oldSOPText.data hws]
    rfl
  cases geminiApiKey <;>
    simp [filterRelevantContent, htrim]

/-- C3 witness: the whitespace-only source "  " is rejected without a
request even though the proxy stood ready to answer. -/
theorem filterRelevantContent_empty_rejects_witness :
    (∀ c ∈ ("  " : String).data, jsWhitespace c = true) ∧
    filterRelevantContent none "  " "AAC.1" "Objective title" "Interpretation" none
        (FetchCall.resp { error := none, candidates := [] }) =
      { sentRequest := false
        result := { success := false, filteredText := none
                    error := some "No old SOP text provided to filter" } } :=
  ⟨by decide,
   filterRelevantContent_empty_rejects none "  " "AAC.1" "Objective title"
     "Interpretation" none (FetchCall.resp { error := none, candidates := [] })
     (by decide)⟩

/-- C4 counterexample: with no API credential configured,
`filterRelevantContent` (named by the claim among the credential-requiring
adapter functions) still issues its network call and succeeds — it performs
no credential check at all — instead of failing fast with a configuration
error and no network call. -/
theorem filterRelevantContent_ignores_credential :
    (filterRelevantContent none "Relevant old SOP body." "AAC.1" "Title" "Interp" none
        (FetchCall.resp { error := none, candidates := [] })).sentRequest = true ∧
    (filterRelevantContent none "Relevant old SOP body." "AAC.1" "Title" "Interp" none
        (FetchCall.resp { error := none, candidates := [] })).result.success = true := by
  constructor <;> decide

/-- C4 (amended): with no API credential configured, `extractTextFromImage`,
`extractTextFromPDF` and `generateSOPFromContent` fail fast with the
configuration error "Gemini API key not configured" and no network call;
`analyzeDocument` and `generateImprovedDocument` likewise issue no network
call but return degraded defaults (an empty "unknown" analysis, the empty
string) rather than a configuration error; `filterRelevantContent` performs
no credential check — its behaviour is independent of the configured
credential and it issues its network call (to the backend proxy) for any
non-empty input. -/
theorem adapter_no_credential_fails_fast :
    (∀ (fileMime : String) (prompt : Option String) (call : FileFetchCall GeminiResp),
      extractTextFromImage none fileMime prompt call =
        { sentRequest := false
          result := { success := false, text := "", documentType := none
                      error := some "Gemini API key not configured" } }) ∧
    (∀ (fileMime : String) (prompt : Option String) (call : FileFetchCall GeminiResp),
      extractTextFromPDF none fileMime prompt call =
        { sentRequest := false
          result := { success := false, text := "", documentType := none
                      error := some "Gemini API key not configured" } }) ∧
    (∀ (text documentCategory : String) (call : FetchCall GeminiResp)
        (parsed : Option DocumentAnalysis),
      analyzeDocument none text documentCategory call parsed =
        { sentRequest := false
          result := { documentType := "unknown", title := none, sections := []
                      keyValuePairs := none, suggestions := none } }) ∧
    (∀ (extractedText documentCategory userSuggestions hospitalName : String)
        (call : FetchCall GeminiResp) (htmlMatch : Option String),
      generateImprovedDocument none extractedText documentCategory userSuggestions
          hospitalName call htmlMatch = { sentRequest := false, result := "" }) ∧
    (∀ (pdfContent titlesInterpretation chapterCode chapterName : String)
        (customPrompt objectiveCode : Option String) (call : FetchCall GeminiResp),
      generateSOPFromContent none pdfContent titlesInterpretation chapterCode
          chapterName customPrompt objectiveCode call =
        { sentRequest := false
          result := { success := false, sop := ""
                      error := some "Gemini API key not configured" } }) ∧
    (∀ (geminiApiKey : Option String)
        (oldSOPText objectiveCode objectiveTitle interpretation : String)
        (customFilterPrompt : Option String) (call : FetchCall GeminiResp),
      filterRelevantContent geminiApiKey oldSOPText objectiveCode objectiveTitle
          interpretation customFilterPrompt call =
        filterRelevantContent none oldSOPText objectiveCode objectiveTitle
          interpretation customFilterPrompt call) ∧
    (filterRelevantContent none "Some old SOP text." "c" "t" "i" none
        (FetchCall.resp { error := none, candidates := [] })).sentRequest = true := by
  refine ⟨?_, ?_, ?_, ?_, ?_, ?_, ?_⟩
  · intro fileMime prompt call; rfl
  · intro fileMime prompt call; rfl
  · intro text documentCategory call parsed; rfl
  · intro a b c d call hm; rfl
  · intro a b c d cp oc call; rfl
  · intro key a b c d cp call; cases key <;> rfl
  · decide

/-- C8: an extraction call whose parsed model response raises no error and
contains no candidate text (no candidate, absent content, no parts, or an
absent or empty text part) returns `success: true` with the empty text — the
absence of content is not an error, for both `extractTextFromImage` and
`extractTextFromPDF`. -/
theorem extract_empty_response_success
    (geminiApiKey fileMime : String) (prompt : Option String) (r : GeminiResp)
    (herr : r.error = none) (htext : firstCandidateText r = "") :
    (extractTextFromImage (some geminiApiKey) fileMime prompt (FileFetchCall.resp r)).result =
      { success := true, text := "", documentType := some "image", error := none } ∧
    (extractTextFromPDF (some geminiApiKey) fileMime prompt (FileFetchCall.resp r)).result =
      { success := true, text := "", documentType := some "pdf", error := none } := by
  constructor
  · simp [extractTextFromImage, htext]
  · simp [extractTextFromPDF, herr, htext]

/-- C8 witness: a response with no candidates at all yields `success: true`
and empty text for both extraction functions. -/
theorem extract_empty_response_success_witness :
    (({ error := none, candidates := [] } : GeminiResp).error = none ∧
      firstCandidateText { error := none, candidates := [] } = "") ∧
    ((extractTextFromImage (some "key-1") "image/png" none
        (FileFetchCall.resp { error := none, candidates := [] })).result =
      { success := true, text := "", documentType := some "image", error := none } ∧
     (extractTextFromPDF (some "key-1") "image/png" none
        (FileFetchCall.resp { error := none, candidates := [] })).result =
      { success := true, text := "", documentType := some "pdf", error := none }) :=
  ⟨⟨rfl, rfl⟩,
   extract_empty_response_success "key-1" "image/png" none
     { error := none, candidates := [] } rfl rfl⟩

/-- C5: the document number computed by `generateSOPFromContent` equals
"SOP-" ++ chapterCode ++ "-" followed by the objective code with every dot
replaced by a dash when the objective code is provided and non-empty, and by
"001" otherwise; in particular "AAC" with "4.2" yields "SOP-AAC-4-2" and
"AAC" without an objective code yields "SOP-AAC-001". -/
theorem generateSOPDocNo_spec :
    generateSOPDocNo "AAC" (some "4.2") = "SOP-AAC-4-2" ∧
    generateSOPDocNo "AAC" none = "SOP-AAC-001" ∧
    (∀ chapterCode oc : String, oc ≠ "" →
      (generateSOPDocNo chapterCode (some oc)).data =
        ("SOP-" ++ chapterCode ++ "-").data ++
          oc.data.map (fun c => if c = '.' then '-' else c)) ∧
    (∀ chapterCode : String,
      generateSOPDocNo chapterCode none = "SOP-" ++ chapterCode ++ "-001" ∧
      generateSOPDocNo chapterCode (some "") = "SOP-" ++ chapterCode ++ "-001") := by
  have hgen : ∀ chapterCode oc : String, oc ≠ "" →
      (generateSOPDocNo chapterCode (some oc)).data =
        ("SOP-" ++ chapterCode ++ "-").data ++
          oc.data.map (fun c => if c = '.' then '-' else c) := by
    intro chapterCode oc hne
    show (("SOP-" ++ chapterCode ++ "-") ++
        (if oc = "" then "001" else jsReplaceAll "." "-" oc)).data = _
    rw [if_neg hne, String.data_append]
    congr 1
    exact replace_dot_map oc.data
  have hnone : ∀ chapterCode : String,
      generateSOPDocNo chapterCode none = "SOP-" ++ chapterCode ++ "-001" := by
    intro chapterCode
    show ("SOP-" ++ chapterCode ++ "-") ++ "001" = "SOP-" ++ chapterCode ++ "-001"
    apply String.ext
    simp only [String.data_append, List.append_assoc]
    congr 1
  have hempty : ∀ chapterCode : String,
      generateSOPDocNo chapterCode (some "") = "SOP-" ++ chapterCode ++ "-001" := by
    intro chapterCode
    show ("SOP-" ++ chapterCode ++ "-") ++
        (if ("" : String) = "" then "001" else jsReplaceAll "." "-" "") =
      "SOP-" ++ chapterCode ++ "-001"
    rw [if_pos rfl]
    exact hnone chapterCode
  refine ⟨?_, ?_, hgen, fun cc => ⟨hnone cc, hempty cc⟩⟩
  · apply String.ext
    rw [hgen "AAC" "4.2" (by decide)]
    decide
  · rw [hnone "AAC"]
    decide

/-- C7: for every accepted improvement, `handleSOPUpdate` produces the next
version string by parsing the current version as a decimal (a count of
tenths), adding one tenth and rendering with one decimal digit; it appends an
entry holding the new version and the new content to the in-memory version
history and replaces the displayed SOP; in particular improving at "1.0"
yields "1.1" and improving again yields "1.2". -/
theorem handleSOPUpdate_spec (st : PipelineState) (updatedSOP : String) (nowMs : Int)
    (n : Nat) (hparse : parseTenths st.currentVersion = some n) :
    (handleSOPUpdate updatedSOP nowMs st).currentVersion = renderTenths (n + 1) ∧
    (handleSOPUpdate updatedSOP nowMs st).sopVersions =
      st.sopVersions ++
        [{ id := toString nowMs, version := renderTenths (n + 1)
           content := updatedSOP, timestampMs := nowMs }] ∧
    (handleSOPUpdate updatedSOP nowMs st).finalSOP = updatedSOP ∧
    (handleSOPUpdate updatedSOP nowMs st).directEditContent = updatedSOP ∧
    incrementVersion "1.0" = "1.1" ∧
    incrementVersion "1.1" = "1.2" := by
  have hv : incrementVersion st.currentVersion = renderTenths (n + 1) := by
    unfold incrementVersion
    rw [hparse]
  refine ⟨?_, ?_, rfl, rfl, by decide, by decide⟩
  · show incrementVersion st.currentVersion = renderTenths (n + 1)
    exact hv
  · show st.sopVersions ++
        [{ id := toString nowMs, version := incrementVersion st.currentVersion
           content := updatedSOP, timestampMs := nowMs }] = _
    rw [hv]

/-- C7 witness: improving from the initial state at version "1.0" appends an
entry at version "1.1" and sets the current version to "1.1". -/
theorem handleSOPUpdate_spec_witness :
    parseTenths ({ selectedObjective := "", objectiveTitle := "", interpretation := ""
                   filteredContent := "", mergedContent := "", finalSOP := ""
                   directEditContent := "", existingSOP := none, sopVersions := []
                   currentVersion := "1.0" } : PipelineState).currentVersion = some 10 ∧
    ((handleSOPUpdate "improved content" 7
        { selectedObjective := "", objectiveTitle := "", interpretation := ""
          filteredContent := "", mergedContent := "", finalSOP := ""
          directEditContent := "", existingSOP := none, sopVersions := []
          currentVersion := "1.0" }).currentVersion = renderTenths 11 ∧
      (handleSOPUpdate "improved content" 7
        { selectedObjective := "", objectiveTitle := "", interpretation := ""
          filteredContent := "", mergedContent := "", finalSOP := ""
          directEditContent := "", existingSOP := none, sopVersions := []
          currentVersion := "1.0" }).sopVersions =
        ({ selectedObjective := "", objectiveTitle := "", interpretation := ""
           filteredContent := "", mergedContent := "", finalSOP := ""
           directEditContent := "", existingSOP := none, sopVersions := []
           currentVersion := "1.0" } : PipelineState).sopVersions ++
          [{ id := toString (7 : Int), version := renderTenths 11
             content := "improved content", timestampMs := 7 }] ∧
      (handleSOPUpdate "improved content" 7
        { selectedObjective := "", objectiveTitle := "", interpretation := ""
          filteredContent := "", mergedContent := "", finalSOP := ""
          directEditContent := "", existingSOP := none, sopVersions := []
          currentVersion := "1.0" }).finalSOP = "improved content" ∧
      (handleSOPUpdate "improved content" 7
        { selectedObjective := "", objectiveTitle := "", interpretation := ""
          filteredContent := "", mergedContent := "", finalSOP := ""
          directEditContent := "", existingSOP := none, sopVersions := []
          currentVersion := "1.0" }).directEditContent = "improved content" ∧
      incrementVersion "1.0" = "1.1" ∧
      incrementVersion "1.1" = "1.2") :=
  ⟨by decide,
   handleSOPUpdate_spec
     { selectedObjective := "", objectiveTitle := "", interpretation := ""
       filteredContent := "", mergedContent := "", finalSOP := ""
       directEditContent := "", existingSOP := none, sopVersions := []
       currentVersion := "1.0" } "improved content" 7 10 (by decide)⟩

/-- C10: on the pipeline screen, `handleObjectiveChange` unconditionally
resets every downstream stage output before (possibly) loading a previously
persisted SOP for the new pair: the resulting filtered and merged contents
are empty; the final SOP, the direct-edit content and the existing-SOP record
are either cleared or set from the freshly loaded row; and none of these five
fields depends on its value in the prior state, so stale downstream output
never survives an objective change. -/
theorem handleObjectiveChange_clears_downstream
    (objectiveCode : String) (objectives : List ObjectiveEdit)
    (selectedChapterCode : String) (lookup : Option GeneratedSOPRow)
    (st st' : PipelineState) :
    (handleObjectiveChange objectiveCode objectives selectedChapterCode lookup st).filteredContent = "" ∧
    (handleObjectiveChange objectiveCode objectives selectedChapterCode lookup st).mergedContent = "" ∧
    ((handleObjectiveChange objectiveCode objectives selectedChapterCode lookup st).finalSOP = "" ∨
      ∃ row, lookup = some row ∧
        (handleObjectiveChange objectiveCode objectives selectedChapterCode lookup st).finalSOP =
          row.sop_html_content) ∧
    ((handleObjectiveChange objectiveCode objectives selectedChapterCode lookup st).directEditContent = "" ∨
      ∃ row, lookup = some row ∧
        (handleObjectiveChange objectiveCode objectives selectedChapterCode lookup st).directEditContent =
          row.sop_html_content) ∧
    ((handleObjectiveChange objectiveCode objectives selectedChapterCode lookup st).existingSOP = none ∨
      (handleObjectiveChange objectiveCode objectives selectedChapterCode lookup st).existingSOP = lookup) ∧
    (handleObjectiveChange objectiveCode objectives selectedChapterCode lookup st).filteredContent =
      (handleObjectiveChange objectiveCode objectives selectedChapterCode lookup st').filteredContent ∧
    (handleObjectiveChange objectiveCode objectives selectedChapterCode lookup st).mergedContent =
      (handleObjectiveChange objectiveCode objectives selectedChapterCode lookup st').mergedContent ∧
    (handleObjectiveChange objectiveCode objectives selectedChapterCode lookup st).finalSOP =
      (handleObjectiveChange objectiveCode objectives selectedChapterCode lookup st').finalSOP ∧
    (handleObjectiveChange objectiveCode objectives selectedChapterCode lookup st).directEditContent =
      (handleObjectiveChange objectiveCode objectives selectedChapterCode lookup st').directEditContent ∧
    (handleObjectiveChange objectiveCode objectives selectedChapterCode lookup st).existingSOP =
      (handleObjectiveChange objectiveCode objectives selectedChapterCode lookup st').existingSOP := by
  unfold handleObjectiveChange
  dsimp only
  by_cases hcond : (¬objectiveCode = "" ∧ ¬selectedChapterCode = "")
  · cases lookup with
    | none =>
      cases objectives.find? (fun o => o.objective_code == objectiveCode) <;>
        simp [hcond]
    | some row =>
      by_cases hrow : ¬row.sop_html_content = ""
      · cases objectives.find? (fun o => o.objective_code == objectiveCode) <;>
          simp [hcond, hrow]
      · cases objectives.find? (fun o => o.objective_code == objectiveCode) <;>
          simp [hcond, hrow]
  · cases lookup <;>
      cases objectives.find? (fun o => o.objective_code == objectiveCode) <;>
        simp [hcond]

theorem jsTrimList_append_ws_list (l : List Char) (t : List Char)
    (hws : ∀ c ∈ t, jsWhitespace c = true) :
    jsTrimList (l ++ t) = jsTrimList l := by
  induction t using List.reverseRecOn with
  | nil => simp
  | append_singleton t c ih =>
    rw [← List.append_assoc]
    rw [jsTrimList_append_ws (l ++ t) c (hws c (by simp))]
    exact ih (fun x hx => hws x (by simp [hx]))

theorem jsTrim_eq_of_data_eq_append (x y : String) (t : List Char)
    (hws : ∀ c ∈ t, jsWhitespace c = true)
    (hdata : x.data = y.data ++ t) : jsTrim x = jsTrim y := by
  apply String.ext
  show jsTrimList x.data = jsTrimList y.data
  rw [hdata]
  exact jsTrimList_append_ws_list y.data t hws

/-- C1 counterexample: the section headers the code actually emits carry the
stage tags (F3)/(F4)/(F5) and the third header reads "FILTERED RELEVANT
CONTENT", so merging title "T", interpretation "I" and filtered content "F"
does not produce the claimed string. -/
theorem handleMergeAll_header_counterexample :
    handleMergeAll "T" "I" "F" ≠
      some "=== TITLE ===\nT\n\n=== INTERPRETATION ===\nI\n\n=== FILTERED CONTENT ===\nF" ∧
    handleMergeAll "T" "I" "F" =
      some "=== TITLE (F3) ===\nT\n\n=== INTERPRETATION (F4) ===\nI\n\n=== FILTERED RELEVANT CONTENT (F5) ===\nF" := by
  constructor <;> decide

/-- C1 (amended): with the headers the code actually emits — `=== TITLE (F3)
===`, `=== INTERPRETATION (F4) ===`, `=== FILTERED RELEVANT CONTENT (F5) ===`
— the merge output is exactly the sections of the non-empty inputs, in the
fixed order title, interpretation, filtered, each header followed on the next
line by its body, joined by blank lines and trimmed; the section of an empty
input is omitted entirely, and with all three inputs empty nothing is merged
at all. -/
theorem handleMergeAll_spec (title interp filtered : String) :
    handleMergeAll title interp filtered =
      (if title = "" ∧ interp = "" ∧ filtered = "" then none
       else some (mergeSpecFormat title interp filtered)) := by
  by_cases h1 : title = "" <;> by_cases h2 : interp = "" <;> by_cases h3 : filtered = "" <;>
    simp only [handleMergeAll, mergeSpecFormat, mergeSections, joinBlankLine,
      h1, h2, h3, if_pos, if_neg, ite_true, ite_false, ne_eq, not_true_eq_false,
      not_false_eq_true, and_self, and_true, and_false, true_and, false_and,
      List.append_nil, List.nil_append, List.singleton_append, List.cons_append]
  · subst h1 h2 h3
    decide
  all_goals {
    rw [if_pos (show _ ≠ "" by
      intro hEq
      have hd := congrArg String.data hEq
      simp [String.data_append] at hd)]
    congr 1
    apply jsTrim_eq_of_data_eq_append _ _
      (if _h3 : filtered = "" then ['\n', '\n'] else ['\n']) (by split <;> decide)
    split <;>
      simp_all [String.data_append, List.append_assoc]
  }

/-- C9: for every model output, the post-processed SOP string of
`generateSOPFromContent` has every fenced-code marker stripped (no three
consecutive backticks survive anywhere in it), the stripped output is
trimmed, and the result begins with a doctype: when the stripped, trimmed
output does not already start with `<!doctype` case-insensitively the fixed
doctype prefix is prepended, so the final output always starts with
`<!doctype` case-insensitively. -/
theorem generateSOPPostprocess_spec (raw : String) :
    generateSOPPostprocess raw =
      (if jsStartsWith "<!doctype".data (lowerList (jsTrim (stripCodeFences raw)).data)
       then jsTrim (stripCodeFences raw)
       else doctypePrefix ++ jsTrim (stripCodeFences raw)) ∧
    ¬ tickPat <:+: (generateSOPPostprocess raw).data ∧
    jsTrim (jsTrim (stripCodeFences raw)) = jsTrim (stripCodeFences raw) ∧
    jsStartsWith "<!doctype".data (lowerList (generateSOPPostprocess raw).data) = true := by
  have hstrip : ¬ tickPat <:+: (stripCodeFences raw).data :=
    strip3_no_triple (jsReplaceAllCI "```html" "" raw).data
  have htrim : ¬ tickPat <:+: (jsTrim (stripCodeFences raw)).data := by
    intro h
    exact hstrip (h.trans (jsTrimList_inside (stripCodeFences raw).data))
  refine ⟨rfl, ?_, jsTrim_idem (stripCodeFences raw), ?_⟩
  · show ¬ tickPat <:+:
      (if jsStartsWith "<!doctype".data (lowerList (jsTrim (stripCodeFences raw)).data)
       then jsTrim (stripCodeFences raw)
       else doctypePrefix ++ jsTrim (stripCodeFences raw)).data
    split
    · exact htrim
    · intro h
      rw [String.data_append] at h
      exact htrim (infix_append_right tickPat doctypePrefix.data _ (by decide) (by decide) h)
  · show jsStartsWith "<!doctype".data
      (lowerList (if jsStartsWith "<!doctype".data (lowerList (jsTrim (stripCodeFences raw)).data)
        then jsTrim (stripCodeFences raw)
        else doctypePrefix ++ jsTrim (stripCodeFences raw)).data) = true
    split
    · rename_i hcond
      exact hcond
    · have hpfx : "<!doctype".data <+:
          lowerList ((doctypePrefix ++ jsTrim (stripCodeFences raw)).data) := by
        rw [String.data_append]
        unfold lowerList
        rw [List.map_append]
        exact (show "<!doctype".data <+: doctypePrefix.data.map jsToLower by decide).trans
          (List.prefix_append _ _)
      exact List.isPrefixOf_iff_prefix.mpr hpfx

/-- C6: for a generation run at epoch-millisecond `now` on a host with fixed
timezone offset, `generateSOPFromContent` renders as effective date the
instant 30 · 86400000 ms before `now` and as review date the instant
365 · 86400000 ms after `now`; those instants fall on the local civil days
exactly 30 days before and 365 days after the run's civil day; and both are
formatted as a two-digit day, an abbreviated en-GB month name and a
four-digit year (the year hypotheses exclude dates outside the four-digit
range, where `year: 'numeric'` renders more or fewer digits). -/
theorem generateSOP_dates_spec (tzOffsetMs now : Int)
    (h1 : 1000 ≤ (civilFromDays (civilDayOf tzOffsetMs (generateSOPEffectiveMs now))).1)
    (h2 : (civilFromDays (civilDayOf tzOffsetMs (generateSOPEffectiveMs now))).1 ≤ 9999)
    (h3 : 1000 ≤ (civilFromDays (civilDayOf tzOffsetMs (generateSOPReviewMs now))).1)
    (h4 : (civilFromDays (civilDayOf tzOffsetMs (generateSOPReviewMs now))).1 ≤ 9999) :
    generateSOPEffectiveDate tzOffsetMs now =
      formatDateEnGB tzOffsetMs (now - 30 * 86400000) ∧
    generateSOPReviewDate tzOffsetMs now =
      formatDateEnGB tzOffsetMs (now + 365 * 86400000) ∧
    civilDayOf tzOffsetMs (generateSOPEffectiveMs now) = civilDayOf tzOffsetMs now - 30 ∧
    civilDayOf tzOffsetMs (generateSOPReviewMs now) = civilDayOf tzOffsetMs now + 365 ∧
    DDMonYYYYShape (generateSOPEffectiveDate tzOffsetMs now) ∧
    DDMonYYYYShape (generateSOPReviewDate tzOffsetMs now) := by
  refine ⟨by norm_num [generateSOPEffectiveDate, generateSOPEffectiveMs],
          by norm_num [generateSOPReviewDate, generateSOPReviewMs], ?_, ?_, ?_, ?_⟩
  · show (now - 30 * 24 * 60 * 60 * 1000 + tzOffsetMs) / 86400000 =
      (now + tzOffsetMs) / 86400000 - 30
    omega
  · show (now + 365 * 24 * 60 * 60 * 1000 + tzOffsetMs) / 86400000 =
      (now + tzOffsetMs) / 86400000 + 365
    omega
  · exact formatDateEnGB_shape tzOffsetMs (generateSOPEffectiveMs now) h1 h2
  · exact formatDateEnGB_shape tzOffsetMs (generateSOPReviewMs now) h3 h4

/-- C6 witness: for a run at epoch-millisecond 1760000000000 (9 October 2025
UTC) with the Indian Standard Time offset, the effective and review dates
fall 30 days before and 365 days after the run's civil day and both are
rendered in the DD Mon YYYY shape. -/
theorem generateSOP_dates_spec_witness :
    (1000 ≤ (civilFromDays (civilDayOf 19800000 (generateSOPEffectiveMs 1760000000000))).1 ∧
     (civilFromDays (civilDayOf 19800000 (generateSOPEffectiveMs 1760000000000))).1 ≤ 9999 ∧
     1000 ≤ (civilFromDays (civilDayOf 19800000 (generateSOPReviewMs 1760000000000))).1 ∧
     (civilFromDays (civilDayOf 19800000 (generateSOPReviewMs 1760000000000))).1 ≤ 9999) ∧
    (generateSOPEffectiveDate 19800000 1760000000000 =
       formatDateEnGB 19800000 (1760000000000 - 30 * 86400000) ∧
     generateSOPReviewDate 19800000 1760000000000 =
       formatDateEnGB 19800000 (1760000000000 + 365 * 86400000) ∧
     civilDayOf 19800000 (generateSOPEffectiveMs 1760000000000) =
       civilDayOf 19800000 1760000000000 - 30 ∧
     civilDayOf 19800000 (generateSOPReviewMs 1760000000000) =
       civilDayOf 19800000 1760000000000 + 365 ∧
     DDMonYYYYShape (generateSOPEffectiveDate 19800000 1760000000000) ∧
     DDMonYYYYShape (generateSOPReviewDate 19800000 1760000000000)) :=
  ⟨⟨by decide, by decide, by decide, by decide⟩,
   generateSOP_dates_spec 19800000 1760000000000
     (by decide) (by decide) (by decide) (by decide)⟩

/-- C5 witness: at chapter "HRM" and objective code "4.2" the computed
document number is the dot-to-dash rendering. -/
theorem generateSOPDocNo_spec_witness :
    ("4.2" : String) ≠ "" ∧
    (generateSOPDocNo "HRM" (some "4.2")).data =
      ("SOP-" ++ "HRM" ++ "-").data ++
        "4.2".data.map (fun c => if c = '.' then '-' else c) :=
  ⟨by decide, generateSOPDocNo_spec.2.2.1 "HRM" "4.2" (by decide)⟩
